import Mathlib

/-
Verification of rwrotson/parser-template: a shallow embedding of the
Selenium-facade modules (src/base/selenium/expected_conditions.py,
waits.py, interface.py, drivers.py) together with proofs about the
behaviour described in the specification.

Strings are modelled by Lean `String`; Python's per-character operations
(lower, upper, strip, split, endswith) are embedded below with Python's
semantics (ASCII case mapping).  Python exceptions are modelled with
`Except PyError`.
-/

/-- Python exceptions that the embedded functions can raise. -/
inductive PyError
  | valueError (msg : String)
  | attributeError (msg : String)
  | timeoutException
  deriving DecidableEq, Repr

deriving instance DecidableEq for Except

/-- Python str.lower (ASCII case mapping). -/
def pyLower (s : String) : String := ⟨s.data.map Char.toLower⟩

/-- Python str.upper (ASCII case mapping). -/
def pyUpper (s : String) : String := ⟨s.data.map Char.toUpper⟩

/-- Characters removed by Python str.strip() with no argument. -/
def isPySpace (c : Char) : Bool :=
  c == ' ' || c == '\t' || c == '\n' || c == '\r' || c == '\x0b' || c == '\x0c'

/-- Python str.strip() on a character list: drop whitespace from both ends. -/
def stripChars (l : List Char) : List Char :=
  ((l.dropWhile isPySpace).reverse.dropWhile isPySpace).reverse

/-- Python str.strip(). -/
def pyStrip (s : String) : String := ⟨stripChars s.data⟩

/-- Python str.split with a one-character separator, on a character list:
"".split(sep) is [""], and n separators produce n+1 (possibly empty) parts. -/
def splitChars (sep : Char) : List Char → List (List Char)
  | [] => [[]]
  | c :: cs =>
    let rest := splitChars sep cs
    if c == sep then [] :: rest
    else
      match rest with
      | [] => [[c]]
      | h :: t => (c :: h) :: t

/-- Python str.split with a one-character separator. -/
def pySplit (sep : Char) (s : String) : List String :=
  (splitChars sep s.data).map fun l => ⟨l⟩

/-- Python str.endswith. -/
def pyEndsWith (s sfx : String) : Bool := decide (sfx.data <:+ s.data)

/-
expected_conditions.py
-/

/-- Loop body of _check_if_has_css_declaration: a single declaration of the
style string matches when splitting it on ':' and stripping each part yields
exactly two items, the first equals search_property, and search_value is
either absent or equal to the second. -/
def declMatches (search_property : String) (search_value : Option String)
    (declaration : String) : Bool :=
  match (pySplit ':' declaration).map pyStrip with
  | [css_property, css_value] =>
    css_property == search_property &&
      (match search_value with
       | none => true
       | some sv => css_value == sv)
  | _ => false

/-- Embeds _check_if_has_css_declaration from expected_conditions.py.
The element argument is represented by the result of its
get_attribute("style") call.  When is_case_sensitive is false the code
lowercases style, search_property and search_value; Python's None.lower()
raises AttributeError, which the Except models. -/
def _check_if_has_css_declaration (style_attr : Option String)
    (search_property : String) (search_value : Option String)
    (is_case_sensitive : Bool) : Except PyError Bool :=
  match style_attr with
  | none => .ok false
  | some style =>
    let style := if !is_case_sensitive then pyLower style else style
    let search_property :=
      if !is_case_sensitive then pyLower search_property else search_property
    match search_value, is_case_sensitive with
    | none, false =>
      .error (.attributeError "NoneType object has no attribute lower")
    | _, _ =>
      let search_value :=
        if !is_case_sensitive then search_value.map pyLower else search_value
      .ok ((pySplit ';' style).any (declMatches search_property search_value))

/-- The C2 sentence's description of the case-insensitive check, stated in
the spec's own words: splitting the lowercased style on ';' yields at least
one declaration that splits on ':' into exactly two parts whose stripped
first part equals the lowercased property and whose stripped second part
equals the lowercased value. -/
def has_css_declaration_described (s p v : String) : Prop :=
  ∃ d ∈ pySplit ';' (pyLower s),
    ∃ a b, (pySplit ':' d).map pyStrip = [a, b] ∧ a = pyLower p ∧ b = pyLower v

example : _check_if_has_css_declaration (some "color: red; x") "COLOR" (some "Red") false = .ok true := by decide
example : _check_if_has_css_declaration none "color" none false = .ok false := by decide
example : _check_if_has_css_declaration (some "color:red") "color" none false
    = .error (.attributeError "NoneType object has no attribute lower") := by decide

/-
waits.py
-/

/-- Modelled from the spec: the polling loop of selenium's WebDriverWait.until,
which is library code outside this repository; the spec describes an explicit
wait as "a polling loop that repeatedly evaluates a predicate against session
state until it succeeds or a timeout elapses".  cond gives the truth value of
the k-th evaluation of the predicate; fuel bounds how many evaluations fit in
the timeout window. -/
def poll_loop (cond : Nat → Bool) : Nat → Nat → Except PyError Unit
  | _, 0 => .error .timeoutException
  | k, fuel + 1 => if cond k then .ok () else poll_loop cond (k + 1) fuel

/-- Modelled from the spec: the k-th evaluation of the predicate starts at
time k * poll_frequency, so the evaluations that start within the timeout
window are those with k * poll_frequency ≤ timeout; there is always at least
one evaluation. -/
def num_evals (timeout poll_frequency : ℚ) : Nat :=
  ⌊timeout / poll_frequency⌋₊ + 1

/-- Modelled from the spec: WebDriverWait(driver, timeout, poll_frequency).until(cond),
the automation library's wait/polling primitive that waits.py delegates to.
It returns normally as soon as an in-window evaluation is truthy and raises
TimeoutException otherwise. -/
def WebDriverWait_until (cond : Nat → Bool) (timeout poll_frequency : ℚ) :
    Except PyError Unit :=
  poll_loop cond 0 (num_evals timeout poll_frequency)

/-- Embeds wait_until from waits.py: constructs the wait object and delegates
to its until method.  The condition callable is represented by the trace of
its successive evaluation results; ignored_exceptions plays no role once
evaluations are represented by their boolean outcome. -/
def wait_until (cond : Nat → Bool) (timeout : ℚ) (poll_frequency : ℚ) :
    Except PyError Unit :=
  WebDriverWait_until cond timeout poll_frequency

/-
interface.py: locator strategies
-/

/-- The eight members of selenium's By enum that the _By literal names. -/
inductive By
  | ID | NAME | XPATH | LINK_TEXT | PARTIAL_LINK_TEXT | TAG_NAME | CLASS_NAME | CSS_SELECTOR
  deriving DecidableEq, Repr

/-- Name of a By member, as used by getattr. -/
def By.memberName : By → String
  | .ID => "ID"
  | .NAME => "NAME"
  | .XPATH => "XPATH"
  | .LINK_TEXT => "LINK_TEXT"
  | .PARTIAL_LINK_TEXT => "PARTIAL_LINK_TEXT"
  | .TAG_NAME => "TAG_NAME"
  | .CLASS_NAME => "CLASS_NAME"
  | .CSS_SELECTOR => "CSS_SELECTOR"

/-- getattr(By, name): the By member carrying the given name, when one exists. -/
def By.fromName (name : String) : Option By :=
  if name == "ID" then some .ID
  else if name == "NAME" then some .NAME
  else if name == "XPATH" then some .XPATH
  else if name == "LINK_TEXT" then some .LINK_TEXT
  else if name == "PARTIAL_LINK_TEXT" then some .PARTIAL_LINK_TEXT
  else if name == "TAG_NAME" then some .TAG_NAME
  else if name == "CLASS_NAME" then some .CLASS_NAME
  else if name == "CSS_SELECTOR" then some .CSS_SELECTOR
  else none

/-- list(get_args(_By)): the eight locator-strategy strings of interface.py. -/
def _By_args : List String :=
  ["id", "name", "xpath", "link_text", "partial_link_text", "tag_name",
   "class_name", "css_selector"]

/-- Embeds _parse_str_to_by_enum from interface.py: reject strings outside
_By's arguments with ValueError, then return getattr(By, by.upper()). -/
def _parse_str_to_by_enum (by_str : String) : Except PyError By :=
  if by_str ∈ _By_args then
    match By.fromName (pyUpper by_str) with
    | some b => .ok b
    | none => .error (.attributeError "type object By has no matching attribute")
  else
    .error (.valueError ("Unsupported By type: " ++ by_str))

example : _parse_str_to_by_enum "partial_link_text" = .ok .PARTIAL_LINK_TEXT := by decide
example : _parse_str_to_by_enum "safari" = .error (.valueError ("Unsupported By type: " ++ "safari")) := by decide

/-
interface.py: the browser interface over a remote webdriver session
-/

/-- A located DOM element, modelled by its attribute lookup behaviour
(WebElement.get_attribute). -/
structure WebElement where
  get_attribute : String → Option String

/-- The remote webdriver session: the sticky implicit-wait timeout set by
implicitly_wait, an abstract bag standing for every other piece of session
configuration, and the engine's element-lookup behaviour (find_element may
raise, find_elements returns the possibly empty list of matches). -/
structure WebDriver where
  implicit_wait : ℚ
  other_config : ℕ
  find_element_fn : By → String → Except PyError WebElement
  find_elements_fn : By → String → List WebElement

/-- Embeds WebDriver.implicitly_wait: sets the sticky implicit-wait timeout. -/
def implicitly_wait (d : WebDriver) (time_to_wait_in_s : ℚ) : WebDriver :=
  { d with implicit_wait := time_to_wait_in_s }

/-- Embeds BrowserInterface.find_element_by.  With a timeout and no condition
the session's implicit wait is set first; with both a timeout and a condition
the explicit wait runs first and its TimeoutException propagates; then the
strategy string is parsed and the driver's find_element is called with the
parsed enum and the unchanged value.  Returns the result together with the
session state after the call. -/
def find_element_by (d : WebDriver) (by_str value : String)
    (timeout_in_s : Option ℚ) (condition : Option (Nat → Bool)) :
    Except PyError WebElement × WebDriver :=
  match timeout_in_s, condition with
  | some t, none =>
    let d := implicitly_wait d t
    ((_parse_str_to_by_enum by_str).bind fun b => d.find_element_fn b value, d)
  | some t, some c =>
    match wait_until c t (1 / 2) with
    | .error e => (.error e, d)
    | .ok _ =>
      ((_parse_str_to_by_enum by_str).bind fun b => d.find_element_fn b value, d)
  | none, _ =>
    ((_parse_str_to_by_enum by_str).bind fun b => d.find_element_fn b value, d)

/-- Embeds BrowserInterface.find_elements_by, with the same wait handling as
find_element_by and the driver's find_elements as the lookup. -/
def find_elements_by (d : WebDriver) (by_str value : String)
    (timeout_in_s : Option ℚ) (condition : Option (Nat → Bool)) :
    Except PyError (List WebElement) × WebDriver :=
  match timeout_in_s, condition with
  | some t, none =>
    let d := implicitly_wait d t
    ((_parse_str_to_by_enum by_str).bind fun b => .ok (d.find_elements_fn b value), d)
  | some t, some c =>
    match wait_until c t (1 / 2) with
    | .error e => (.error e, d)
    | .ok _ =>
      ((_parse_str_to_by_enum by_str).bind fun b => .ok (d.find_elements_fn b value), d)
  | none, _ =>
    ((_parse_str_to_by_enum by_str).bind fun b => .ok (d.find_elements_fn b value), d)

/-- A BeautifulSoup parse tree, modelled by the markup and parser feature it
was built from: the parser is deterministic, so the (markup, features) pair
determines the tree. -/
structure BeautifulSoup where
  markup : Option String
  features : String

/-- BeautifulSoup(markup=web_element.get_attribute("outerHTML"), features="html.parser"),
as built by find_bs4_element_by and find_bs4_elements_by. -/
def soup_of (e : WebElement) : BeautifulSoup :=
  { markup := e.get_attribute "outerHTML", features := "html.parser" }

/-- Embeds BrowserInterface.find_bs4_element_by: find_element_by, then parse
the element's outerHTML with the html.parser feature. -/
def find_bs4_element_by (d : WebDriver) (by_str value : String)
    (timeout_in_s : Option ℚ) (condition : Option (Nat → Bool)) :
    Except PyError BeautifulSoup × WebDriver :=
  let r := find_element_by d by_str value timeout_in_s condition
  (r.1.map soup_of, r.2)

/-- Embeds BrowserInterface.find_bs4_elements_by: find_elements_by, then parse
each found element's outerHTML with the html.parser feature, in order. -/
def find_bs4_elements_by (d : WebDriver) (by_str value : String)
    (timeout_in_s : Option ℚ) (condition : Option (Nat → Bool)) :
    Except PyError (List BeautifulSoup) × WebDriver :=
  let r := find_elements_by d by_str value timeout_in_s condition
  (r.1.map (List.map soup_of), r.2)

/-- Whether an embedded call raised ValueError. -/
def isValueError {α : Type} : Except PyError α → Bool
  | .error (.valueError _) => true
  | _ => false

/-
interface.py: screenshots
-/

/-- Embeds BaseBrowserInterface._normalize_screenshot_filename; the input is
already str(filename). -/
def _normalize_screenshot_filename (filename : String) : String :=
  if pyEndsWith (pyLower filename) ".png" then filename else filename ++ ".png"

/-- Embeds BaseBrowserInterface.get_screenshot_as_file; driver_save is the
underlying webdriver's get_screenshot_as_file. -/
def get_screenshot_as_file (driver_save : String → Bool) (filename : String) : Bool :=
  driver_save (_normalize_screenshot_filename filename)

/-- Embeds BaseBrowserInterface.save_screenshot: normalizes and then calls
get_screenshot_as_file, which normalizes again. -/
def save_screenshot (driver_save : String → Bool) (filename : String) : Bool :=
  get_screenshot_as_file driver_save (_normalize_screenshot_filename filename)

example : _normalize_screenshot_filename "shot.PNG" = "shot.PNG" := by decide
example : _normalize_screenshot_filename "shot" = "shot.png" := by decide

/-
drivers.py
-/

/-- webdriver_manager's ChromeType values used by the capability matrix. -/
inductive ChromeType
  | google | chromium | brave
  deriving DecidableEq, Repr

/-- The driver-manager objects appearing in _BROWSER_PARAMS_MAP;
ChromeDriverManager() defaults to ChromeType.GOOGLE. -/
inductive DriverManager
  | chromeDriverManager (chrome_type : ChromeType)
  | edgeChromiumDriverManager
  | geckoDriverManager
  | ieDriverManager
  | operaDriverManager
  deriving DecidableEq, Repr

/-- The webdriver classes appearing in the matrix's driver_type column. -/
inductive DriverType
  | chromeDriver | undetectedChromeDriver | edgeDriver | firefoxDriver
  | ieDriver | remoteDriver
  deriving DecidableEq, Repr

/-- The service classes appearing in the matrix's service_type column. -/
inductive ServiceType
  | chromeService | edgeService | firefoxService | ieService
  deriving DecidableEq, Repr

/-- The options classes appearing in the matrix's options_type column. -/
inductive OptionsType
  | chromeOptions | edgeOptions | firefoxOptions | ieOptions
  deriving DecidableEq, Repr

/-- An instantiated options object: its concrete class, the arguments added
with add_argument in order, and the experimental options added. -/
structure OptionsObj where
  otype : OptionsType
  arguments : List String
  experimental_options : List (String × Bool)
  deriving DecidableEq, Repr

/-- An entry of the browser-driver capability matrix (the BrowserDriver
TypedDict of drivers.py). -/
structure BrowserDriver where
  manager_obj : DriverManager
  driver_type : DriverType
  service_type : ServiceType
  options_type : OptionsType
  deriving DecidableEq, Repr

/-- Embeds _BROWSER_PARAMS_MAP from drivers.py, entry for entry in source
order; a Python dict with string keys is modelled as an association list. -/
def _BROWSER_PARAMS_MAP : List (String × BrowserDriver) :=
  [("chrome",
    { manager_obj := .chromeDriverManager .google, driver_type := .chromeDriver,
      service_type := .chromeService, options_type := .chromeOptions }),
   ("undetected_chrome",
    { manager_obj := .chromeDriverManager .google, driver_type := .undetectedChromeDriver,
      service_type := .chromeService, options_type := .chromeOptions }),
   ("chromium",
    { manager_obj := .chromeDriverManager .chromium, driver_type := .chromeDriver,
      service_type := .chromeService, options_type := .chromeOptions }),
   ("brave",
    { manager_obj := .chromeDriverManager .brave, driver_type := .chromeDriver,
      service_type := .chromeService, options_type := .chromeOptions }),
   ("edge",
    { manager_obj := .edgeChromiumDriverManager, driver_type := .edgeDriver,
      service_type := .edgeService, options_type := .edgeOptions }),
   ("firefox",
    { manager_obj := .geckoDriverManager, driver_type := .firefoxDriver,
      service_type := .firefoxService, options_type := .firefoxOptions }),
   ("ie",
    { manager_obj := .ieDriverManager, driver_type := .ieDriver,
      service_type := .ieService, options_type := .ieOptions }),
   ("opera",
    { manager_obj := .operaDriverManager, driver_type := .remoteDriver,
      service_type := .chromeService, options_type := .chromeOptions })]

/-- The values of the SupportedBrowser literal type of drivers.py. -/
def supported_browsers : List String :=
  ["chrome", "undetected_chrome", "chromium", "brave", "edge", "firefox",
   "ie", "opera"]

/-- The options argument of _parse_options and create_driver: None, a list of
strings, or an already-instantiated options object. -/
inductive OptionsArg
  | noneArg
  | strList (items : List String)
  | obj (o : OptionsObj)
  deriving DecidableEq, Repr

/-- Python truthiness of the options argument: None and the empty list are
falsy; options objects define no __bool__ or __len__ and are truthy. -/
def OptionsArg.truthy : OptionsArg → Bool
  | .noneArg => false
  | .strList items => !items.isEmpty
  | .obj _ => true

/-- isinstance(options, list). -/
def OptionsArg.isList : OptionsArg → Bool
  | .strList _ => true
  | _ => false

/-- isinstance(options, options_type): the concrete options classes of the
matrix are not subclasses of one another, so only an object of the same
class is an instance. -/
def OptionsArg.isInstanceOf : OptionsArg → OptionsType → Bool
  | .obj o, t => o.otype == t
  | _, _ => false

/-- options_type(): a freshly constructed default options object. -/
def options_default (t : OptionsType) : OptionsObj :=
  { otype := t, arguments := [], experimental_options := [] }

/-- OptionsObj.add_argument. -/
def add_argument (o : OptionsObj) (arg : String) : OptionsObj :=
  { o with arguments := o.arguments ++ [arg] }

/-- OptionsObj.add_experimental_option. -/
def add_experimental_option (o : OptionsObj) (name : String) (value : Bool) :
    OptionsObj :=
  { o with experimental_options := o.experimental_options ++ [(name, value)] }

/-- Embeds _parse_options from drivers.py. -/
def _parse_options (options : OptionsArg) (options_type : OptionsType) :
    Except PyError OptionsObj :=
  if options.truthy && !options.isList && !(options.isInstanceOf options_type) then
    .error (.valueError "Unsupported options type")
  else if !options.truthy then
    .ok (options_default options_type)
  else
    match options with
    | .strList items => .ok (items.foldl add_argument (options_default options_type))
    | .obj o => .ok o
    | .noneArg => .ok (options_default options_type)

/-- Embeds _add_user_agent for a string user agent (the UserAgent-object case
draws a random agent and is not modelled). -/
def _add_user_agent (o : OptionsObj) (user_agent : String) : OptionsObj :=
  add_argument o ("user-agent=" ++ user_agent)

/-- Embeds _parse_executable_path: a falsy executable_path (None or the empty
string) is replaced by driver_manager.install(); install's result is supplied
by the caller since installing performs network and disk effects. -/
def _parse_executable_path (executable_path : Option String) (installed : String) :
    String :=
  match executable_path with
  | none => installed
  | some p => if p == "" then installed else p

/-- What create_driver would construct and return: the undetected-chrome
constructor call, the opera remote-driver call (after starting a Chrome
service and forcing the w3c experimental option), or the standard
driver(service, options, keep_alive) call. -/
inductive DriverConstruction
  | undetectedChrome (executable_path : String) (options : OptionsObj) (keep_alive : Bool)
  | operaRemote (options : OptionsObj) (keep_alive : Bool)
  | standard (driver_type : DriverType) (service_type : ServiceType)
      (executable_path : String) (options : OptionsObj) (keep_alive : Bool)
  deriving DecidableEq, Repr

/-- Embeds create_driver from drivers.py: look the browser up in the matrix
(KeyError is converted to ValueError), resolve the executable path, parse
the options, optionally add the user agent (Python's `if user_agent`
treats the empty string as falsy), then construct.  install models each
manager's install() result. -/
def create_driver (browser : String) (executable_path : Option String)
    (options : OptionsArg) (user_agent : Option String) (keep_alive : Bool)
    (install : DriverManager → String) : Except PyError DriverConstruction :=
  match List.lookup browser _BROWSER_PARAMS_MAP with
  | none => .error (.valueError ("Unsupported browser: " ++ browser))
  | some browser_driver =>
    let path := _parse_executable_path executable_path (install browser_driver.manager_obj)
    (_parse_options options browser_driver.options_type).bind fun opts =>
      let opts := match user_agent with
        | some ua => if ua == "" then opts else _add_user_agent opts ua
        | none => opts
      if browser == "undetected_chrome" then
        .ok (.undetectedChrome path opts keep_alive)
      else if browser == "opera" then
        .ok (.operaRemote (add_experimental_option opts "w3c" true) keep_alive)
      else
        .ok (.standard browser_driver.driver_type browser_driver.service_type
          path opts keep_alive)

example :
    create_driver "safari" none .noneArg none true (fun _ => "p")
      = .error (.valueError ("Unsupported browser: " ++ "safari")) := by decide
example :
    create_driver "opera" none .noneArg none true (fun _ => "p")
      = .ok (.operaRemote
          { otype := .chromeOptions, arguments := [],
            experimental_options := [("w3c", true)] } true) := by decide

/-
Concrete sessions used to evaluate the theorems on closed inputs.
-/

/-- An element carrying no attributes. -/
def elem0 : WebElement := ⟨fun _ => none⟩

/-- An element whose outerHTML attribute is a small div fragment. -/
def elemH : WebElement :=
  ⟨fun a => if a == "outerHTML" then some "<div>x</div>" else none⟩

/-- A session with implicit wait 0 whose engine always finds elem0. -/
def d0 : WebDriver :=
  { implicit_wait := 0, other_config := 0,
    find_element_fn := fun _ _ => .ok elem0,
    find_elements_fn := fun _ _ => [] }

/-- A session whose engine always finds elemH, alone. -/
def d1 : WebDriver :=
  { implicit_wait := 0, other_config := 0,
    find_element_fn := fun _ _ => .ok elemH,
    find_elements_fn := fun _ _ => [elemH] }

/-- A condition whose second evaluation is the first truthy one. -/
def cond_second : Nat → Bool := fun k => k == 1

/-
Helper lemmas
-/

theorem poll_loop_ok_iff (cond : Nat → Bool) (k fuel : Nat) :
    poll_loop cond k fuel = .ok () ↔ ∃ j, j < fuel ∧ cond (k + j) = true := by
  induction fuel generalizing k with
  | zero => simp [poll_loop]
  | succ n ih =>
    rw [poll_loop]
    by_cases h : cond k
    · simp only [h, if_true]
      constructor
      · intro _; exact ⟨0, Nat.succ_pos n, by simpa using h⟩
      · intro _; trivial
    · simp only [h, Bool.false_eq_true, if_false, ih]
      constructor
      · rintro ⟨j, hj, hc⟩
        refine ⟨j + 1, by omega, ?_⟩
        have e : k + (j + 1) = k + 1 + j := by omega
        rwa [e]
      · rintro ⟨j, hj, hc⟩
        match j, hj, hc with
        | 0, _, hc => exact absurd (by simpa using hc) h
        | j + 1, hj, hc =>
          refine ⟨j, by omega, ?_⟩
          have e : k + 1 + j = k + (j + 1) := by omega
          rwa [e]

theorem poll_loop_ok_or_timeout (cond : Nat → Bool) (k fuel : Nat) :
    poll_loop cond k fuel = .ok () ∨ poll_loop cond k fuel = .error .timeoutException := by
  induction fuel generalizing k with
  | zero => exact Or.inr rfl
  | succ n ih =>
    rw [poll_loop]
    by_cases h : cond k
    · simp [h]
    · simpa [h] using ih (k + 1)

theorem pyLower_append (s t : String) :
    pyLower (s ++ t) = pyLower s ++ pyLower t := by
  apply String.ext
  simp [pyLower, String.data_append]

theorem ends_png_append (s : String) :
    pyEndsWith (pyLower (s ++ ".png")) ".png" = true := by
  rw [pyLower_append]
  have hpng : pyLower ".png" = ".png" := by decide
  rw [hpng, pyEndsWith, decide_eq_true_eq, String.data_append]
  exact List.suffix_append _ _

theorem normalize_screenshot_idem (s : String) :
    _normalize_screenshot_filename (_normalize_screenshot_filename s)
      = _normalize_screenshot_filename s := by
  by_cases h : pyEndsWith (pyLower s) ".png" = true
  · have hs : _normalize_screenshot_filename s = s := by
      rw [_normalize_screenshot_filename, if_pos h]
    rw [hs]; exact hs
  · have hs : _normalize_screenshot_filename s = s ++ ".png" := by
      rw [_normalize_screenshot_filename, if_neg h]
    rw [hs, _normalize_screenshot_filename, if_pos (ends_png_append s)]

theorem declMatches_eq_true_iff (sp sv d : String) :
    declMatches sp (some sv) d = true ↔
      ∃ a b, (pySplit ':' d).map pyStrip = [a, b] ∧ a = sp ∧ b = sv := by
  match h : (pySplit ':' d).map pyStrip with
  | [] => simp [declMatches, h]
  | [x] => simp [declMatches, h]
  | [x, y] =>
    rw [declMatches, h]
    constructor
    · intro hb
      refine ⟨x, y, rfl, ?_, ?_⟩
      · have := (Bool.and_eq_true _ _).mp hb |>.1
        exact eq_of_beq this
      · have := (Bool.and_eq_true _ _).mp hb |>.2
        exact eq_of_beq this
    · rintro ⟨a, b, hab, ha, hb⟩
      obtain ⟨rfl, rfl⟩ : x = a ∧ y = b := by
        simpa using hab
      subst ha; subst hb
      simp
  | x :: y :: z :: rest => simp [declMatches, h]

theorem foldl_add_argument (items : List String) (t : OptionsType) (acc : List String)
    (exp : List (String × Bool)) :
    items.foldl add_argument { otype := t, arguments := acc, experimental_options := exp }
      = { otype := t, arguments := acc ++ items, experimental_options := exp } := by
  induction items generalizing acc with
  | nil => simp
  | cons x xs ih =>
    rw [List.foldl_cons, add_argument]
    simpa using ih (acc ++ [x])

theorem lookup_browser_none (b : String) (hb : b ∉ supported_browsers) :
    List.lookup b _BROWSER_PARAMS_MAP = none := by
  simp only [supported_browsers, List.mem_cons, not_or, List.not_mem_nil] at hb
  obtain ⟨h1, h2, h3, h4, h5, h6, h7, h8, -⟩ := hb
  have e1 : (b == "chrome") = false := beq_eq_false_iff_ne.mpr h1
  have e2 : (b == "undetected_chrome") = false := beq_eq_false_iff_ne.mpr h2
  have e3 : (b == "chromium") = false := beq_eq_false_iff_ne.mpr h3
  have e4 : (b == "brave") = false := beq_eq_false_iff_ne.mpr h4
  have e5 : (b == "edge") = false := beq_eq_false_iff_ne.mpr h5
  have e6 : (b == "firefox") = false := beq_eq_false_iff_ne.mpr h6
  have e7 : (b == "ie") = false := beq_eq_false_iff_ne.mpr h7
  have e8 : (b == "opera") = false := beq_eq_false_iff_ne.mpr h8
  simp [_BROWSER_PARAMS_MAP, List.lookup, e1, e2, e3, e4, e5, e6, e7, e8]

/-
Claim theorems
-/

/-- C2: for an element whose style attribute is the string s, a search
property p, a non-None search value v and is_case_sensitive = false,
_check_if_has_css_declaration returns True exactly when splitting the
lowercased s on ';' yields at least one declaration that splits on ':' into
exactly two parts whose stripped first part equals the lowercased p and
whose stripped second part equals the lowercased v (declarations that do not
split into exactly two parts are skipped); and it returns False whenever the
element has no style attribute. -/
theorem css_declaration_check_correct :
    (∀ s p v : String, ∃ b : Bool,
      _check_if_has_css_declaration (some s) p (some v) false = .ok b ∧
        (b = true ↔ has_css_declaration_described s p v)) ∧
    (∀ (p v : String) (cs : Bool),
      _check_if_has_css_declaration none p (some v) cs = .ok false) := by
  constructor
  · intro s p v
    refine ⟨(pySplit ';' (pyLower s)).any (declMatches (pyLower p) (some (pyLower v))),
      rfl, ?_⟩
    rw [List.any_eq_true]
    unfold has_css_declaration_described
    constructor
    · rintro ⟨d, hd, hm⟩
      obtain ⟨a, b, h1, h2, h3⟩ := (declMatches_eq_true_iff _ _ _).mp hm
      exact ⟨d, hd, a, b, h1, h2, h3⟩
    · rintro ⟨d, hd, a, b, h1, h2, h3⟩
      exact ⟨d, hd, (declMatches_eq_true_iff _ _ _).mpr ⟨a, b, h1, h2, h3⟩⟩
  · intro p v cs
    rfl

/-- C4 as stated is false at this input: for an element with no style
attribute, calling _check_if_has_css_declaration with search_value = None and
is_case_sensitive = false returns False and raises nothing, because the
missing-style early return runs before search_value.lower(). -/
theorem css_check_none_value_counterexample :
    _check_if_has_css_declaration none "color" none false = .ok false := rfl

/-- C4 amended: with search_value = None and is_case_sensitive = false,
_check_if_has_css_declaration raises AttributeError from None.lower() before
any declaration parsing whenever the style attribute is present; when the
style attribute is absent it returns False without raising; and the
value-agnostic query completes without exception when is_case_sensitive is
true. -/
theorem css_check_none_value_raises :
    (∀ s p, _check_if_has_css_declaration (some s) p none false
        = .error (.attributeError "NoneType object has no attribute lower")) ∧
    (∀ p, _check_if_has_css_declaration none p none false = .ok false) ∧
    (∀ st p, ∃ b, _check_if_has_css_declaration st p none true = .ok b) := by
  refine ⟨fun s p => rfl, fun p => rfl, ?_⟩
  rintro (_ | s) p
  · exact ⟨false, rfl⟩
  · exact ⟨_, rfl⟩

/-- C8: _normalize_screenshot_filename returns the filename unchanged when
its lowercased form already ends with ".png" and otherwise appends ".png";
hence the filename passed on to the underlying driver by
get_screenshot_as_file and save_screenshot always ends case-insensitively
with ".png". -/
theorem screenshot_filename_normalization :
    ∀ (s : String) (driver_save : String → Bool),
      (_normalize_screenshot_filename s
        = if pyEndsWith (pyLower s) ".png" then s else s ++ ".png") ∧
      pyEndsWith (pyLower (_normalize_screenshot_filename s)) ".png" = true ∧
      get_screenshot_as_file driver_save s
        = driver_save (_normalize_screenshot_filename s) ∧
      save_screenshot driver_save s
        = driver_save (_normalize_screenshot_filename s) := by
  intro s driver_save
  refine ⟨rfl, ?_, rfl, ?_⟩
  · by_cases h : pyEndsWith (pyLower s) ".png" = true
    · rw [_normalize_screenshot_filename, if_pos h]
      exact h
    · rw [_normalize_screenshot_filename, if_neg h]
      exact ends_png_append s
  · rw [save_screenshot, get_screenshot_as_file, normalize_screenshot_idem]

/-- C9: _normalize_screenshot_filename is idempotent, so save_screenshot
(which normalizes and then calls get_screenshot_as_file, normalizing again)
hands the underlying driver the same filename as get_screenshot_as_file
called directly, and returns the same result. -/
theorem screenshot_save_agrees :
    ∀ (s : String) (driver_save : String → Bool),
      _normalize_screenshot_filename (_normalize_screenshot_filename s)
        = _normalize_screenshot_filename s ∧
      save_screenshot driver_save s
        = driver_save (_normalize_screenshot_filename s) ∧
      save_screenshot driver_save s = get_screenshot_as_file driver_save s := by
  intro s driver_save
  refine ⟨normalize_screenshot_idem s, ?_, ?_⟩
  · rw [save_screenshot, get_screenshot_as_file, normalize_screenshot_idem]
  · rw [save_screenshot, get_screenshot_as_file, get_screenshot_as_file,
      normalize_screenshot_idem]

/-- C3: wait_until is a polling loop: it returns normally exactly when some
evaluation of the condition scheduled within the timeout window (the k-th
evaluation starts at time k * poll_frequency) is truthy, and in every other
case it raises TimeoutException rather than returning normally. -/
theorem wait_until_polling (cond : Nat → Bool) (t f : ℚ) (ht : 0 ≤ t) (hf : 0 < f) :
    (wait_until cond t f = .ok ()
      ↔ ∃ k : Nat, (k : ℚ) * f ≤ t ∧ cond k = true) ∧
    (wait_until cond t f ≠ .ok ()
      → wait_until cond t f = .error .timeoutException) := by
  constructor
  · rw [wait_until, WebDriverWait_until, poll_loop_ok_iff]
    constructor
    · rintro ⟨j, hj, hc⟩
      refine ⟨j, ?_, by simpa using hc⟩
      have hj' : j ≤ ⌊t / f⌋₊ := by
        rw [num_evals] at hj
        omega
      have hle : (j : ℚ) ≤ t / f := (Nat.le_floor_iff (div_nonneg ht hf.le)).mp hj'
      calc (j : ℚ) * f ≤ t / f * f := mul_le_mul_of_nonneg_right hle hf.le
        _ = t := div_mul_cancel₀ t hf.ne'
    · rintro ⟨k, hk, hc⟩
      refine ⟨k, ?_, by simpa using hc⟩
      rw [num_evals]
      have hle : (k : ℚ) ≤ t / f := (le_div_iff₀ hf).mpr hk
      have := Nat.le_floor hle
      omega
  · intro hne
    rcases poll_loop_ok_or_timeout cond 0 (num_evals t f) with h | h
    · exact absurd h hne
    · exact h

/-- Closed instance of wait_until_polling: condition true at the second
evaluation, timeout 1, poll frequency 1. -/
theorem wait_until_polling_witness :
    (0 : ℚ) ≤ 1 ∧ (0 : ℚ) < 1 ∧
      ((wait_until cond_second 1 1 = .ok ()
          ↔ ∃ k : Nat, (k : ℚ) * 1 ≤ 1 ∧ cond_second k = true) ∧
        (wait_until cond_second 1 1 ≠ .ok ()
          → wait_until cond_second 1 1 = .error .timeoutException)) :=
  ⟨by norm_num, by norm_num,
    wait_until_polling cond_second 1 1 (by norm_num) (by norm_num)⟩

/-- C7: _parse_options returns a fresh default options_type instance for None
or an empty list; for a non-empty list of strings it returns a new instance
holding exactly those strings as arguments in order; an instance of
options_type is returned unchanged; and any other truthy input (an options
object of a different class) raises ValueError. -/
theorem parse_options_cases :
    (∀ t, _parse_options .noneArg t = .ok (options_default t)) ∧
    (∀ t, _parse_options (.strList []) t = .ok (options_default t)) ∧
    (∀ t items, _parse_options (.strList items) t
      = .ok { otype := t, arguments := items, experimental_options := [] }) ∧
    (∀ o, _parse_options (.obj o) o.otype = .ok o) ∧
    (∀ o t, o.otype ≠ t →
      _parse_options (.obj o) t = .error (.valueError "Unsupported options type")) := by
  refine ⟨fun t => rfl, fun t => rfl, ?_, ?_, ?_⟩
  · intro t items
    cases items with
    | nil => rfl
    | cons x xs =>
      rw [_parse_options]
      simp only [OptionsArg.truthy, OptionsArg.isList, OptionsArg.isInstanceOf,
        List.isEmpty_cons, Bool.not_false, Bool.and_true, Bool.true_and,
        Bool.and_false, Bool.not_true, Bool.false_and, if_false]
      rw [foldl_add_argument]
      simp [options_default]
  · intro o
    rw [_parse_options]
    simp [OptionsArg.truthy, OptionsArg.isList, OptionsArg.isInstanceOf]
  · intro o t hne
    rw [_parse_options]
    have he : (o.otype == t) = false := beq_eq_false_iff_ne.mpr hne
    simp [OptionsArg.truthy, OptionsArg.isList, OptionsArg.isInstanceOf, he]

/-- Closed instance of parse_options_cases: a ChromeOptions object passed
where EdgeOptions is expected raises ValueError. -/
theorem parse_options_cases_witness :
    OptionsObj.otype
        { otype := .chromeOptions, arguments := [], experimental_options := [] }
      ≠ OptionsType.edgeOptions ∧
    _parse_options
        (.obj { otype := .chromeOptions, arguments := [], experimental_options := [] })
        .edgeOptions
      = .error (.valueError "Unsupported options type") :=
  ⟨by decide, parse_options_cases.2.2.2.2 _ _ (by decide)⟩

/-- C6: the keys of _BROWSER_PARAMS_MAP are exactly the eight
SupportedBrowser values in order, the lookup in create_driver succeeds for
every one of them, and for every browser string outside the eight
create_driver raises ValueError with nothing constructed. -/
theorem browser_params_map_exact (b : String) (hb : b ∉ supported_browsers)
    (executable_path : Option String) (options : OptionsArg)
    (user_agent : Option String) (keep_alive : Bool)
    (install : DriverManager → String) :
    _BROWSER_PARAMS_MAP.map Prod.fst = supported_browsers ∧
    (∀ sb ∈ supported_browsers, (List.lookup sb _BROWSER_PARAMS_MAP).isSome = true) ∧
    create_driver b executable_path options user_agent keep_alive install
      = .error (.valueError ("Unsupported browser: " ++ b)) := by
  refine ⟨rfl, by decide, ?_⟩
  rw [create_driver, lookup_browser_none b hb]

/-- Closed instance of browser_params_map_exact at the unsupported
browser string "safari". -/
theorem browser_params_map_exact_witness :
    "safari" ∉ supported_browsers ∧
    create_driver "safari" none .noneArg none true (fun _ => "driver-path")
      = .error (.valueError ("Unsupported browser: " ++ "safari")) :=
  ⟨by decide,
    (browser_params_map_exact "safari" (by decide) none .noneArg none true
      (fun _ => "driver-path")).2.2⟩

/-- C5: _parse_str_to_by_enum maps each of the eight strategy strings to the
By member whose name is the uppercased string and raises ValueError for every
other string; consequently, whenever the engine's own find_element raises no
ValueError and no explicit wait is interposed, find_element_by,
find_elements_by, find_bs4_element_by and find_bs4_elements_by raise
ValueError exactly when the strategy string is outside the eight. -/
theorem parse_by_enum_exact (s : String) (d : WebDriver) (value : String)
    (hd : ∀ b v, isValueError (d.find_element_fn b v) = false) :
    (s ∈ _By_args →
      ∃ b, _parse_str_to_by_enum s = .ok b ∧ By.memberName b = pyUpper s) ∧
    (s ∉ _By_args →
      _parse_str_to_by_enum s = .error (.valueError ("Unsupported By type: " ++ s))) ∧
    (isValueError (find_element_by d s value none none).1 = true ↔ s ∉ _By_args) ∧
    (∀ t, isValueError (find_element_by d s value (some t) none).1 = true ↔ s ∉ _By_args) ∧
    (isValueError (find_elements_by d s value none none).1 = true ↔ s ∉ _By_args) ∧
    (∀ t, isValueError (find_elements_by d s value (some t) none).1 = true ↔ s ∉ _By_args) ∧
    (isValueError (find_bs4_element_by d s value none none).1 = true ↔ s ∉ _By_args) ∧
    (isValueError (find_bs4_elements_by d s value none none).1 = true ↔ s ∉ _By_args) := by
  have hmap : s ∈ _By_args →
      ∃ b, _parse_str_to_by_enum s = .ok b ∧ By.memberName b = pyUpper s := by
    intro hmem
    simp only [_By_args, List.mem_cons, List.not_mem_nil, or_false] at hmem
    rcases hmem with rfl | rfl | rfl | rfl | rfl | rfl | rfl | rfl
    · exact ⟨.ID, by decide, by decide⟩
    · exact ⟨.NAME, by decide, by decide⟩
    · exact ⟨.XPATH, by decide, by decide⟩
    · exact ⟨.LINK_TEXT, by decide, by decide⟩
    · exact ⟨.PARTIAL_LINK_TEXT, by decide, by decide⟩
    · exact ⟨.TAG_NAME, by decide, by decide⟩
    · exact ⟨.CLASS_NAME, by decide, by decide⟩
    · exact ⟨.CSS_SELECTOR, by decide, by decide⟩
  have hnm : s ∉ _By_args →
      _parse_str_to_by_enum s = .error (.valueError ("Unsupported By type: " ++ s)) := by
    intro hmem
    rw [_parse_str_to_by_enum, if_neg hmem]
  have hmap_ve : ∀ {α β : Type} (g : α → β) (x : Except PyError α),
      isValueError (x.map g) = isValueError x := by
    intro α β g x
    cases x with
    | ok a => rfl
    | error e => cases e <;> rfl
  have hcore : ∀ {α : Type} (g : By → Except PyError α),
      (∀ b, isValueError (g b) = false) →
      (isValueError ((_parse_str_to_by_enum s).bind g) = true ↔ s ∉ _By_args) := by
    intro α g hg
    by_cases hmem : s ∈ _By_args
    · obtain ⟨b, hb, -⟩ := hmap hmem
      rw [hb]
      simp [Except.bind, hg b, hmem]
    · rw [hnm hmem]
      simp [Except.bind, isValueError, hmem]
  refine ⟨hmap, hnm, ?_, ?_, ?_, ?_, ?_, ?_⟩
  · exact hcore (fun b => d.find_element_fn b value) (fun b => hd b value)
  · intro t
    exact hcore (fun b => d.find_element_fn b value) (fun b => hd b value)
  · exact hcore (fun b => .ok (d.find_elements_fn b value)) (fun b => rfl)
  · intro t
    exact hcore (fun b => .ok (d.find_elements_fn b value)) (fun b => rfl)
  · rw [show (find_bs4_element_by d s value none none).1
        = ((find_element_by d s value none none).1).map soup_of from rfl, hmap_ve]
    exact hcore (fun b => d.find_element_fn b value) (fun b => hd b value)
  · rw [show (find_bs4_elements_by d s value none none).1
        = ((find_elements_by d s value none none).1).map (List.map soup_of) from rfl,
      hmap_ve]
    exact hcore (fun b => .ok (d.find_elements_fn b value)) (fun b => rfl)

/-- Closed instance of parse_by_enum_exact: the string "safari" is outside
the eight strategies, _parse_str_to_by_enum rejects it with ValueError, and
find_element_by on the session d0 surfaces that ValueError. -/
theorem parse_by_enum_exact_witness :
    _parse_str_to_by_enum "safari"
      = .error (.valueError ("Unsupported By type: " ++ "safari")) ∧
    (isValueError (find_element_by d0 "safari" "x" none none).1 = true
      ↔ "safari" ∉ _By_args) :=
  ⟨(parse_by_enum_exact "safari" d0 "x" (fun _ _ => rfl)).2.1 (by decide),
   (parse_by_enum_exact "safari" d0 "x" (fun _ _ => rfl)).2.2.1⟩

/-- C1 as stated is false at this input: calling find_element_by with
timeout_in_s = 5 and no condition changes the session's sticky implicit-wait
timeout from 0 to 5 rather than leaving the session configuration unchanged. -/
theorem find_element_by_counterexample :
    (find_element_by d0 "id" "x" (some 5) none).2.implicit_wait = 5 ∧
    d0.implicit_wait = 0 :=
  ⟨rfl, rfl⟩

/-- C1 amended: find_element_by (and find_elements_by) passes the value
through unchanged to the engine's find_element (find_elements) with the
strategy string converted to the By enum, and returns the engine's result
unchanged; the session state is left unchanged in every configuration except
timeout_in_s given without condition, in which case the sticky implicit-wait
timeout is first set to timeout_in_s (a lasting session change, made even
when the strategy string later fails to parse); with both timeout_in_s and
condition given, the explicit wait runs first and a wait timeout propagates
instead of the lookup. -/
theorem find_element_by_frame (d : WebDriver) (by_str value : String)
    (t : ℚ) (c : Nat → Bool) :
    (find_element_by d by_str value none none
      = ((_parse_str_to_by_enum by_str).bind fun b => d.find_element_fn b value, d)) ∧
    (find_element_by d by_str value none (some c)
      = ((_parse_str_to_by_enum by_str).bind fun b => d.find_element_fn b value, d)) ∧
    ((find_element_by d by_str value (some t) none).2
      = { d with implicit_wait := t }) ∧
    ((find_element_by d by_str value (some t) none).1
      = (_parse_str_to_by_enum by_str).bind fun b => d.find_element_fn b value) ∧
    ((find_element_by d by_str value (some t) (some c)).2 = d) ∧
    ((find_element_by d by_str value (some t) (some c)).1
      = match wait_until c t (1 / 2) with
        | .ok _ => (_parse_str_to_by_enum by_str).bind fun b => d.find_element_fn b value
        | .error e => .error e) ∧
    ((find_elements_by d by_str value none none).2 = d) ∧
    ((find_elements_by d by_str value none (some c)).2 = d) ∧
    ((find_elements_by d by_str value (some t) none).2
      = { d with implicit_wait := t }) ∧
    ((find_elements_by d by_str value (some t) (some c)).2 = d) := by
  refine ⟨rfl, rfl, rfl, rfl, ?_, ?_, rfl, rfl, rfl, ?_⟩
  · cases h : wait_until c t (1 / 2) with
    | ok u => rw [one_div] at h; simp [find_element_by, h]
    | error e => rw [one_div] at h; simp [find_element_by, h]
  · cases h : wait_until c t (1 / 2) with
    | ok u => rw [one_div] at h; simp [find_element_by, h]
    | error e => rw [one_div] at h; simp [find_element_by, h]
  · cases h : wait_until c t (1 / 2) with
    | ok u => rw [one_div] at h; simp [find_elements_by, h]
    | error e => rw [one_div] at h; simp [find_elements_by, h]

/-- C10: find_bs4_element_by returns the parse tree built from the located
element's outerHTML attribute with the html.parser feature, and
find_bs4_elements_by returns one such parse tree per found element, in the
order the driver returned the elements. -/
theorem find_bs4_parses_outerHTML (d : WebDriver) (by_str value : String)
    (timeout_in_s : Option ℚ) (condition : Option (Nat → Bool)) :
    (∀ e, (find_element_by d by_str value timeout_in_s condition).1 = .ok e →
      (find_bs4_element_by d by_str value timeout_in_s condition).1
        = .ok { markup := e.get_attribute "outerHTML", features := "html.parser" }) ∧
    (∀ es, (find_elements_by d by_str value timeout_in_s condition).1 = .ok es →
      ∃ l, (find_bs4_elements_by d by_str value timeout_in_s condition).1 = .ok l ∧
        l.length = es.length ∧
        ∀ (i : Nat) (hl : i < l.length) (he : i < es.length),
          l.get ⟨i, hl⟩
            = { markup := (es.get ⟨i, he⟩).get_attribute "outerHTML",
                features := "html.parser" }) := by
  constructor
  · intro e he
    show ((find_element_by d by_str value timeout_in_s condition).1.map soup_of) = _
    rw [he]
    rfl
  · intro es hes
    refine ⟨es.map soup_of, ?_, by simp, ?_⟩
    · show ((find_elements_by d by_str value timeout_in_s condition).1.map (List.map soup_of)) = _
      rw [hes]
      rfl
    · intro i hl he
      simp [List.get_eq_getElem, List.getElem_map, soup_of]

/-- Closed instance of find_bs4_parses_outerHTML on the session d1, whose
engine finds elemH. -/
theorem find_bs4_parses_outerHTML_witness :
    ((find_element_by d1 "id" "x" none none).1 = .ok elemH) ∧
    ((find_bs4_element_by d1 "id" "x" none none).1
      = .ok { markup := elemH.get_attribute "outerHTML", features := "html.parser" }) :=
  ⟨rfl, (find_bs4_parses_outerHTML d1 "id" "x" none none).1 elemH rfl⟩
